import Mathlib

/-!
# Verification of the rplidarc1 protocol codec and streaming loop

Shallow embedding of the RPLidar C1 driver (`protocol.py`, `scanner.py`).
Bytes are modelled as natural numbers (`< 256` where the claims need it),
Python floats as exact rationals `ℚ`, Python `round` as a round-half-to-even
function on `ℚ`, raised exceptions as `Except` errors, and the cooperative
streaming loop as a recursion over a finite trace of per-iteration
environments that records the observable events (sleeps, transport reads,
snapshot writes, queue publications).
-/

namespace RPLidarC1

/-- Python `round` on exact rationals: round half to even
(`x - ⌊x⌋ = 1/2` resolves to the even neighbour), matching the semantics of
the builtin `round` used in `protocol.py`. -/
def pyRound (x : ℚ) : ℤ :=
  if x - ⌊x⌋ < 1/2 then ⌊x⌋
  else if 1/2 < x - ⌊x⌋ then ⌊x⌋ + 1
  else if ⌊x⌋ % 2 = 0 then ⌊x⌋ else ⌊x⌋ + 1

/-- `ResponseMode(IntEnum)` from `protocol.py` (the source spells the second
variant `MUTLI_RESPONSE`). -/
inductive ResponseMode where
  | SINGLE_RESPONSE
  | MUTLI_RESPONSE
deriving DecidableEq, Repr

/-- The `IntEnum` constructor `ResponseMode(value)`: `none` models the
`ValueError` Python raises for a value outside `{0, 1}`. -/
def ResponseMode.ofNat? : ℕ → Option ResponseMode
  | 0 => some .SINGLE_RESPONSE
  | 1 => some .MUTLI_RESPONSE
  | _ => none

/-- The integer value of a `ResponseMode` member. -/
def ResponseMode.val : ResponseMode → ℕ
  | .SINGLE_RESPONSE => 0
  | .MUTLI_RESPONSE => 1

/-- `HealthStatus(IntEnum)` from `protocol.py`. -/
inductive HealthStatus where
  | GOOD
  | WARNING
  | ERROR
deriving DecidableEq, Repr

/-- The `IntEnum` constructor `HealthStatus(value)`: `none` models the
`ValueError` raised for a value outside `{0, 1, 2}`. -/
def HealthStatus.ofNat? : ℕ → Option HealthStatus
  | 0 => some .GOOD
  | 1 => some .WARNING
  | 2 => some .ERROR
  | _ => none

/-- The two distinct `raise ValueError` / `raise` sites of the descriptor
path. The source raises a plain `ValueError` at both; the constructors
record the raise site (`_check_response_sync_bytes` vs the
`ResponseMode(mode)` conversion), which the specification names
`FramingError` and `ProtocolViolation` respectively. -/
inductive DescriptorError where
  | FramingError
  | ProtocolViolation
deriving DecidableEq, Repr

namespace Response

/-- `Response._check_response_sync_bytes`: byte 0 must be `0xA5`
(`CommonBytes.SYNC_BYTE`) and byte 1 must be `0x5A`
(`ResponseBytes.RESPONSE_SYNC_BYTE`); each mismatch raises `ValueError`
(the specification's `FramingError`).  Python's `descriptor[0:1]`/
`descriptor[1:2]` slices are `List.take`/`List.drop` on the byte list. -/
def check_response_sync_bytes (descriptor : List ℕ) : Except DescriptorError Unit :=
  if descriptor.take 1 ≠ [0xa5] then .error .FramingError
  else if (descriptor.drop 1).take 1 ≠ [0x5a] then .error .FramingError
  else .ok ()

/-- `Response._calculate_request_details`: bytes 2..5 of the descriptor form
a little-endian 32-bit value; the length is its low 30 bits, the mode its
top 2 bits. -/
def calculate_request_details (descriptor : List ℕ) : ℕ × ℕ :=
  let b1 := descriptor.getD 2 0
  let b2 := descriptor.getD 3 0
  let b3 := descriptor.getD 4 0
  let b4 := descriptor.getD 5 0
  let composite_32_bit := b1 ||| (b2 <<< 8) ||| (b3 <<< 16) ||| (b4 <<< 24)
  let mask_30_bit := 0x3FFFFFFF
  let mask_2_bit := 0b11
  let length := composite_32_bit &&& mask_30_bit
  let mode := (composite_32_bit >>> 30) &&& mask_2_bit
  (length, mode)

/-- `Response.parse_response_descriptor` applied to the 7 bytes read from
the serial port: sync check, then length/mode extraction, then the
`ResponseMode(mode)` conversion (whose `ValueError` is the specification's
`ProtocolViolation`). -/
def parse_response_descriptor (descriptor : List ℕ) :
    Except DescriptorError (ℕ × ResponseMode) :=
  match check_response_sync_bytes descriptor with
  | .error e => .error e
  | .ok _ =>
    let d := calculate_request_details descriptor
    match ResponseMode.ofNat? d.2 with
    | some response_mode => .ok (d.1, response_mode)
    | none => .error .ProtocolViolation

/-- `Response._parse_simple_scan_result` on the bytes returned by
`serial.read`: quality from bits 7..2 of byte 0, the 15-bit angle raw value
from bits 7..1 of byte 1 or-ed with byte 2 shifted left 7 (divided by 64,
quantized to thirds, rounded to 2 decimals), distance from bytes 3..4
little-endian divided by 4. -/
def parse_simple_scan_result (response : List ℕ) : ℕ × ℚ × ℚ :=
  let quality := (response.getD 0 0 >>> 2) &&& 63
  let angle0 : ℚ :=
    (((((response.getD 1 0) >>> 1) &&& 127) ||| ((response.getD 2 0) <<< 7) : ℕ) : ℚ) / 64
  let angle : ℚ := ((pyRound ((((pyRound (angle0 * 3) : ℚ) / 3) * 100)) : ℚ)) / 100
  let distance : ℚ := (((response.getD 3 0) ||| ((response.getD 4 0) <<< 8) : ℕ) : ℚ) / 4
  (quality, angle, distance)

/-- The two lines of `multi_response_handler` that turn a parsed record into
the published sample: `_parse_simple_scan_result` followed by
`distance = None if distance == 0 else distance`. -/
def decode_sample (response : List ℕ) : ℕ × ℚ × Option ℚ :=
  let s := parse_simple_scan_result response
  (s.1, s.2.1, if s.2.2 = 0 then none else some s.2.2)

end Response

/-- Observable effects of the streaming loop `multi_response_handler`:
backoff sleeps (`await asyncio.sleep`, milliseconds), transport reads
(`serial.read(length)`), snapshot writes (`output_dict[angle] = distance`),
queue publications (`await output_queue.put({...})`) and the final
`output_queue.task_done()`. -/
inductive Event where
  | sleep (ms : ℕ)
  | readBytes (n : ℕ)
  | dictWrite (angle : ℚ) (distance : Option ℚ)
  | putQueue (quality : ℕ) (angle : ℚ) (distance : Option ℚ)
  | taskDone
deriving DecidableEq, Repr

/-- The `output_dict` snapshot: a Python dict from angle to distance,
modelled as an insertion-ordered association list. -/
abbrev Snapshot := List (ℚ × Option ℚ)

/-- Python dict assignment `d[k] = v`: replaces the value at an existing
key, otherwise appends the new binding. -/
def dictInsert (d : Snapshot) (k : ℚ) (v : Option ℚ) : Snapshot :=
  match d with
  | [] => [(k, v)]
  | (k', v') :: rest => if k' = k then (k, v) :: rest else (k', v') :: dictInsert rest k v

/-- Python dict lookup `d[k]` (as an `Option` of the stored value). -/
def dictLookup (k : ℚ) : Snapshot → Option (Option ℚ)
  | [] => none
  | (k', v) :: rest => if k' = k then some v else dictLookup k rest

/-- The environment one iteration of the `while` loop in
`multi_response_handler` observes: the value of `stop_event.is_set()` at the
top of the iteration, the value of `serial.in_waiting` during the iteration
(the model assumes no bytes arrive mid-iteration, so both reads of
`in_waiting` see this value), and the bytes `serial.read(length)` returns. -/
structure IterEnv where
  stop_is_set : Bool
  in_waiting : ℕ
  data : List ℕ
deriving DecidableEq, Repr

namespace Response

/-- The body of the `while` loop of `Response.multi_response_handler`: if no
bytes are waiting, sleep 0.5 s and re-check (`continue`); otherwise, after a
0.1 s backoff sleep when fewer than 10 bytes are waiting (note: no
`continue` here in the source), read `length` bytes, decode them, write the
snapshot when `output_dict is not None`, and publish to the queue. -/
def multi_response_iteration (env : IterEnv) (length : ℕ)
    (output_dict : Option Snapshot) : List Event × Option Snapshot :=
  if env.in_waiting = 0 then ([.sleep 500], output_dict)
  else
    let backoff : List Event := if env.in_waiting < 10 then [.sleep 100] else []
    let s := decode_sample env.data
    match output_dict with
    | some d =>
      (backoff ++ [.readBytes length, .dictWrite s.2.1 s.2.2,
        .putQueue s.1 s.2.1 s.2.2], some (dictInsert d s.2.1 s.2.2))
    | none =>
      (backoff ++ [.readBytes length, .putQueue s.1 s.2.1 s.2.2], none)

/-- `Response.multi_response_handler`: iterate the loop body over a finite
trace of iteration environments while `stop_event.is_set()` is false (an
exhausted environment list is read as the stop event having been set), then
run `output_queue.task_done()`.  Returns the emitted events and the final
`output_dict`. -/
def multi_response_handler (length : ℕ) :
    List IterEnv → Option Snapshot → List Event × Option Snapshot
  | [], output_dict => ([.taskDone], output_dict)
  | env :: rest, output_dict =>
    if env.stop_is_set then ([.taskDone], output_dict)
    else
      let step := multi_response_iteration env length output_dict
      let next := multi_response_handler length rest step.2
      (step.1 ++ next.1, next.2)

/-- The ways `RPLidar.healthcheck` can raise: a propagated descriptor
error, the `ValueError` from `HealthStatus(response[0])` on a status byte
outside `{0, 1, 2}`, and the bare `raise Exception` on `status == 2` (the
specification's `DeviceFault`). -/
inductive HealthcheckError where
  | descriptor (e : DescriptorError)
  | invalid_status
  | device_fault
deriving DecidableEq, Repr

end Response

/-- `RPLidar.healthcheck` from `scanner.py`, applied to the stream of bytes
the serial port yields: parse the 7-byte descriptor, then
`handle_response(serial=..., length=length)` (which is
`parse_single_response`, i.e. `serial.read(length)`; the `None`/non-`bytes`
branches of the source are unreachable since `read` returns bytes), then
decode byte 0 of the payload as `HealthStatus` and fail on `status == 2`.
The mode returned by the descriptor is bound but never inspected, exactly
as in the source. -/
def RPLidar.healthcheck (stream : List ℕ) :
    Except Response.HealthcheckError HealthStatus :=
  match Response.parse_response_descriptor (stream.take 7) with
  | .error e => .error (.descriptor e)
  | .ok d =>
    let response := (stream.drop 7).take d.1
    match HealthStatus.ofNat? (response.getD 0 0) with
    | none => .error .invalid_status
    | some status =>
      if status = HealthStatus.ERROR then .error .device_fault else .ok status

/-- The three ways a call to `Response.handle_response` can resolve:
dispatch to `parse_single_response`, dispatch to `multi_response_handler`,
or `raise NotImplementedError`. -/
inductive HandleResponseOutcome where
  | single
  | multi
  | notImplementedError
deriving DecidableEq, Repr

namespace Response

/-- The dispatch logic of `Response.handle_response (*args, **kwargs)`,
as a function of the number of positional arguments and the list of keyword
names (distinct by construction in Python): the first branch needs a total
of exactly two arguments with both `serial` and `length` passed by keyword;
the second needs all of `serial`, `stop_event`, `output_queue`, `length`
among the keywords; otherwise `NotImplementedError` is raised. -/
def handle_response (num_args : ℕ) (kwargs : List String) : HandleResponseOutcome :=
  if num_args + kwargs.length = 2 ∧ "serial" ∈ kwargs ∧ "length" ∈ kwargs then
    .single
  else if "serial" ∈ kwargs ∧ "stop_event" ∈ kwargs ∧
      "output_queue" ∈ kwargs ∧ "length" ∈ kwargs then
    .multi
  else .notImplementedError

end Response

end RPLidarC1

namespace RPLidarC1

/-- Or-ing a value below `2 ^ k` with a value shifted left by `k` is
addition: the two summands occupy disjoint bit ranges. -/
theorem lor_shiftLeft_eq_add {a b k : ℕ} (h : a < 2 ^ k) :
    a ||| b <<< k = a + 2 ^ k * b := by
  rw [Nat.shiftLeft_eq, Nat.mul_comm b (2 ^ k), Nat.or_comm, ← Nat.mul_add_lt_is_or h]
  omega

/-- The little-endian recombination done by `_calculate_request_details`
equals the weighted sum of the four bytes. -/
theorem composite_32_bit_eq {d2 d3 d4 d5 : ℕ}
    (h2 : d2 < 256) (h3 : d3 < 256) (h4 : d4 < 256) :
    d2 ||| (d3 <<< 8) ||| (d4 <<< 16) ||| (d5 <<< 24) =
      d2 + 256 * d3 + 65536 * d4 + 16777216 * d5 := by
  rw [lor_shiftLeft_eq_add (show d2 < 2 ^ 8 by omega)]
  rw [lor_shiftLeft_eq_add (show d2 + 2 ^ 8 * d3 < 2 ^ 16 by omega)]
  rw [lor_shiftLeft_eq_add (show d2 + 2 ^ 8 * d3 + 2 ^ 16 * d4 < 2 ^ 24 by omega)]
  norm_num

/-- `_calculate_request_details` on a 7-byte descriptor, in arithmetic form:
the length is the LE 32-bit value mod `2 ^ 30`, the mode its quotient by
`2 ^ 30` (masked to 2 bits, which the byte bounds make redundant). -/
theorem calculate_request_details_eq (d0 d1 d2 d3 d4 d5 d6 : ℕ)
    (h2 : d2 < 256) (h3 : d3 < 256) (h4 : d4 < 256) (h5 : d5 < 256) :
    Response.calculate_request_details [d0, d1, d2, d3, d4, d5, d6] =
      ((d2 + 256 * d3 + 65536 * d4 + 16777216 * d5) % 2 ^ 30,
       (d2 + 256 * d3 + 65536 * d4 + 16777216 * d5) / 2 ^ 30) := by
  have hstep : Response.calculate_request_details [d0, d1, d2, d3, d4, d5, d6] =
      ((d2 ||| (d3 <<< 8) ||| (d4 <<< 16) ||| (d5 <<< 24)) &&& 0x3FFFFFFF,
       ((d2 ||| (d3 <<< 8) ||| (d4 <<< 16) ||| (d5 <<< 24)) >>> 30) &&& 3) := rfl
  rw [hstep, composite_32_bit_eq h2 h3 h4]
  have hmask : (0x3FFFFFFF : ℕ) = 2 ^ 30 - 1 := by norm_num
  have hmask2 : (3 : ℕ) = 2 ^ 2 - 1 := by norm_num
  rw [hmask, Nat.and_pow_two_sub_one_eq_mod, Nat.shiftRight_eq_div_pow, hmask2,
    Nat.and_pow_two_sub_one_eq_mod]
  refine Prod.ext rfl ?_
  simp only
  omega

/-- Masking with `255` is reduction mod 256. -/
theorem and_255_eq_mod (x : ℕ) : x &&& 255 = x % 256 := by
  have h := Nat.and_pow_two_sub_one_eq_mod x 8
  norm_num at h
  exact h

/-- A byte extracted with `&&& 255` is below 256. -/
theorem and_255_lt (x : ℕ) : x &&& 255 < 256 := by
  have h : x &&& 255 ≤ 255 := Nat.and_le_right
  omega

/-- When the two sync bytes are correct, `parse_response_descriptor` reduces
to the length/mode extraction followed by the `ResponseMode` conversion. -/
theorem parse_response_descriptor_sync_ok (b2 b3 b4 b5 b6 : ℕ) :
    Response.parse_response_descriptor [0xa5, 0x5a, b2, b3, b4, b5, b6] =
      (let d := Response.calculate_request_details [0xa5, 0x5a, b2, b3, b4, b5, b6]
       match ResponseMode.ofNat? d.2 with
       | some response_mode => .ok (d.1, response_mode)
       | none => .error .ProtocolViolation) := rfl

end RPLidarC1

/-- C1: for every payload length `L < 2 ^ 30`, every mode `m ∈ {0, 1}` and
every trailing byte, parsing the 7-byte descriptor made of the sync pair
`A5 5A` followed by the little-endian encoding of `L ||| m <<< 30` recovers
exactly the pair `(L, m)`. -/
theorem C1_descriptor_roundtrip (L m b6 : ℕ) (hL : L < 2 ^ 30) (hm : m < 2)
    (hb6 : b6 < 256) :
    RPLidarC1.Response.parse_response_descriptor
      [0xa5, 0x5a,
       (L ||| m <<< 30) &&& 255,
       ((L ||| m <<< 30) >>> 8) &&& 255,
       ((L ||| m <<< 30) >>> 16) &&& 255,
       ((L ||| m <<< 30) >>> 24) &&& 255,
       b6] =
      .ok (L, if m = 0 then RPLidarC1.ResponseMode.SINGLE_RESPONSE
              else RPLidarC1.ResponseMode.MUTLI_RESPONSE) := by
  have he : L ||| m <<< 30 = L + 2 ^ 30 * m := RPLidarC1.lor_shiftLeft_eq_add hL
  rw [he]
  have hcalc := RPLidarC1.calculate_request_details_eq 0xa5 0x5a
    ((L + 2 ^ 30 * m) &&& 255) (((L + 2 ^ 30 * m) >>> 8) &&& 255)
    (((L + 2 ^ 30 * m) >>> 16) &&& 255) (((L + 2 ^ 30 * m) >>> 24) &&& 255) b6
    (RPLidarC1.and_255_lt _) (RPLidarC1.and_255_lt _)
    (RPLidarC1.and_255_lt _) (RPLidarC1.and_255_lt _)
  simp only [RPLidarC1.parse_response_descriptor_sync_ok, hcalc]
  have hV : ((L + 2 ^ 30 * m) &&& 255) + 256 * (((L + 2 ^ 30 * m) >>> 8) &&& 255) +
      65536 * (((L + 2 ^ 30 * m) >>> 16) &&& 255) +
      16777216 * (((L + 2 ^ 30 * m) >>> 24) &&& 255) = L + 2 ^ 30 * m := by
    simp only [RPLidarC1.and_255_eq_mod, Nat.shiftRight_eq_div_pow]
    omega
  rw [hV]
  have hdiv : (L + 2 ^ 30 * m) / 2 ^ 30 = m := by omega
  have hmod : (L + 2 ^ 30 * m) % 2 ^ 30 = L := by omega
  rw [hdiv, hmod]
  interval_cases m
  · rfl
  · rfl

/-- C1 witness: the round-trip theorem instantiated at length 5, mode 1
(`MUTLI_RESPONSE`) and trailing byte 0, with every hypothesis discharged at
the concrete input. -/
theorem C1_descriptor_roundtrip_witness :
    (5 < 2 ^ 30 ∧ 1 < 2 ∧ 0 < 256) ∧
      RPLidarC1.Response.parse_response_descriptor [0xa5, 0x5a, 5, 0, 0, 64, 0] =
        .ok (5, RPLidarC1.ResponseMode.MUTLI_RESPONSE) := by
  refine ⟨by norm_num, ?_⟩
  have h := C1_descriptor_roundtrip 5 1 0 (by norm_num) (by norm_num) (by norm_num)
  exact h

namespace RPLidarC1

/-- `_parse_simple_scan_result` on five explicit bytes, with the `getD`
projections reduced away. -/
theorem parse_simple_scan_result_eq (r0 r1 r2 r3 r4 : ℕ) :
    Response.parse_simple_scan_result [r0, r1, r2, r3, r4] =
      ((r0 >>> 2) &&& 63,
       ((pyRound ((((pyRound (((((r1 >>> 1) &&& 127) ||| (r2 <<< 7) : ℕ) : ℚ) / 64 * 3)) : ℚ)
         / 3) * 100) : ℚ)) / 100,
       (((r3 ||| (r4 <<< 8) : ℕ) : ℚ) / 4)) := rfl

/-- `_parse_simple_scan_result` evaluated on the regression vector
`3C 55 16 88 13`: quality 15, angle 44.67, distance 1250. -/
theorem parse_simple_scan_result_vector :
    Response.parse_simple_scan_result [0x3c, 0x55, 0x16, 0x88, 0x13] =
      (15, 4467 / 100, 1250) := by
  rw [parse_simple_scan_result_eq]
  rw [show (((0x55 : ℕ) >>> 1) &&& 127) ||| ((0x16 : ℕ) <<< 7) = 2858 from by decide]
  rw [show ((0x3c : ℕ) >>> 2) &&& 63 = 15 from by decide]
  rw [show ((0x88 : ℕ) ||| ((0x13 : ℕ) <<< 8)) = 5000 from by decide]
  norm_num [pyRound]

/-- The sample decode (parse plus zero-distance mapping) on the regression
vector `3C 55 16 88 13`. -/
theorem decode_sample_vector :
    Response.decode_sample [0x3c, 0x55, 0x16, 0x88, 0x13] =
      (15, 4467 / 100, some 1250) := by
  unfold Response.decode_sample
  rw [parse_simple_scan_result_vector]
  norm_num

end RPLidarC1

/-- C2: evaluating `Response._parse_simple_scan_result` on the repository's
own regression vector `3C 55 16 88 13` (whose test asserts quality 15,
angle 45.33, distance 1250): the code returns angle 44.67, not 45.33, so
the code contradicts its own test on the angle component. -/
theorem C2_scan_vector_code_value :
    RPLidarC1.Response.parse_simple_scan_result [0x3c, 0x55, 0x16, 0x88, 0x13] =
      (15, 4467 / 100, 1250) ∧ (4467 / 100 : ℚ) ≠ 4533 / 100 := by
  exact ⟨RPLidarC1.parse_simple_scan_result_vector, by norm_num⟩

namespace RPLidarC1

/-- `_check_response_sync_bytes` in conditional form: it succeeds exactly
when byte 0 is `0xA5` and byte 1 is `0x5A`, raising at the first mismatch. -/
theorem check_response_sync_bytes_eq (d0 d1 : ℕ) (rest : List ℕ) :
    Response.check_response_sync_bytes (d0 :: d1 :: rest) =
      if d0 = 0xa5 then
        (if d1 = 0x5a then .ok () else .error .FramingError)
      else .error .FramingError := by
  by_cases h0 : d0 = 0xa5 <;> by_cases h1 : d1 = 0x5a <;>
    simp [Response.check_response_sync_bytes, h0, h1]

/-- A failed sync check makes `parse_response_descriptor` propagate the
`FramingError`. -/
theorem parse_response_descriptor_framing {descriptor : List ℕ}
    (h : Response.check_response_sync_bytes descriptor = .error .FramingError) :
    Response.parse_response_descriptor descriptor = .error .FramingError := by
  unfold Response.parse_response_descriptor
  rw [h]

end RPLidarC1

/-- C4: a 7-byte descriptor is rejected exactly when byte 0 is not `0xA5`,
byte 1 is not `0x5A`, or the top two bits of the little-endian 32-bit value
in bytes 2..5 are neither 0 nor 1; sync mismatches raise at the sync check
(the spec's `FramingError`), an illegal mode raises at the
`ResponseMode(mode)` conversion (the spec's `ProtocolViolation`), and in
every other case a `(length, mode)` pair is returned. -/
theorem C4_descriptor_error_iff (d0 d1 d2 d3 d4 d5 d6 : ℕ)
    (h0 : d0 < 256) (h1 : d1 < 256) (h2 : d2 < 256) (h3 : d3 < 256)
    (h4 : d4 < 256) (h5 : d5 < 256) (h6 : d6 < 256) :
    ((∃ r, RPLidarC1.Response.parse_response_descriptor [d0, d1, d2, d3, d4, d5, d6] =
        .ok r) ↔
      (d0 = 0xa5 ∧ d1 = 0x5a ∧
        (d2 + 256 * d3 + 65536 * d4 + 16777216 * d5) / 2 ^ 30 < 2))
    ∧ ((d0 ≠ 0xa5 ∨ d1 ≠ 0x5a) →
        RPLidarC1.Response.parse_response_descriptor [d0, d1, d2, d3, d4, d5, d6] =
          .error .FramingError)
    ∧ (d0 = 0xa5 → d1 = 0x5a →
        2 ≤ (d2 + 256 * d3 + 65536 * d4 + 16777216 * d5) / 2 ^ 30 →
        RPLidarC1.Response.parse_response_descriptor [d0, d1, d2, d3, d4, d5, d6] =
          .error .ProtocolViolation) := by
  have hcalc := RPLidarC1.calculate_request_details_eq d0 d1 d2 d3 d4 d5 d6 h2 h3 h4 h5
  by_cases hd0 : d0 = 0xa5
  · by_cases hd1 : d1 = 0x5a
    · subst hd0; subst hd1
      rw [RPLidarC1.parse_response_descriptor_sync_ok]
      simp only [hcalc]
      rcases hq : (d2 + 256 * d3 + 65536 * d4 + 16777216 * d5) / 2 ^ 30 with _ | _ | k
      · refine ⟨?_, ?_, ?_⟩
        · simp [RPLidarC1.ResponseMode.ofNat?]
        · rintro (h | h) <;> simp at h
        · intro _ _ hge
          omega
      · refine ⟨?_, ?_, ?_⟩
        · simp [RPLidarC1.ResponseMode.ofNat?]
        · rintro (h | h) <;> simp at h
        · intro _ _ hge
          omega
      · refine ⟨?_, ?_, ?_⟩
        · simp [RPLidarC1.ResponseMode.ofNat?]
        · rintro (h | h) <;> simp at h
        · intro _ _ _
          simp [RPLidarC1.ResponseMode.ofNat?]
    · have hfr : RPLidarC1.Response.parse_response_descriptor [d0, d1, d2, d3, d4, d5, d6] =
          .error .FramingError := by
        refine RPLidarC1.parse_response_descriptor_framing ?_
        rw [RPLidarC1.check_response_sync_bytes_eq]
        simp [hd0, hd1]
      refine ⟨?_, fun _ => hfr, fun _ hc => absurd hc hd1⟩
      rw [hfr]
      simp [hd1]
  · have hfr : RPLidarC1.Response.parse_response_descriptor [d0, d1, d2, d3, d4, d5, d6] =
        .error .FramingError := by
      refine RPLidarC1.parse_response_descriptor_framing ?_
      rw [RPLidarC1.check_response_sync_bytes_eq]
      simp [hd0]
    refine ⟨?_, fun _ => hfr, fun hc => absurd hc hd0⟩
    rw [hfr]
    simp [hd0]

/-- C4 witness: the characterisation applied to the concrete malformed
descriptor `00 5A 05 00 00 00 40` (bad first sync byte), which fails with
the sync-check error. -/
theorem C4_descriptor_error_iff_witness :
    (0 < 256 ∧ 0x5a < 256 ∧ 5 < 256 ∧ 0 < 256 ∧ 0x40 < 256) ∧
      RPLidarC1.Response.parse_response_descriptor [0x00, 0x5a, 0x05, 0x00, 0x00, 0x00, 0x40] =
        .error .FramingError := by
  refine ⟨by norm_num, ?_⟩
  exact (C4_descriptor_error_iff 0x00 0x5a 0x05 0x00 0x00 0x00 0x40
    (by norm_num) (by norm_num) (by norm_num) (by norm_num) (by norm_num)
    (by norm_num) (by norm_num)).2.1 (Or.inl (by norm_num))

/-- C3: parsing the descriptor `A5 5A 05 00 00 00 40` returns payload length
5 and `SINGLE_RESPONSE` mode (the 7th byte is not part of the size/mode
field). -/
theorem C3_concrete_descriptor :
    RPLidarC1.Response.parse_response_descriptor [0xa5, 0x5a, 0x05, 0x00, 0x00, 0x00, 0x40] =
      .ok (5, RPLidarC1.ResponseMode.SINGLE_RESPONSE) := by
  rfl

/-- C5 counterexample: with 5 bytes (fewer than the 10-byte threshold)
available at every availability check of the iteration, the streaming loop
still performs the transport read — the backoff branch has no `continue`,
so after the 0.1 s sleep the read happens without re-checking.  This
refutes the claim that a read happens only when at least ~10 bytes are
available at the check immediately preceding it. -/
theorem C5_read_below_threshold_counterexample :
    RPLidarC1.Event.readBytes 5 ∈
      (RPLidarC1.Response.multi_response_handler 5
        [⟨false, 5, [0x3c, 0x55, 0x16, 0x88, 0x13]⟩] none).1 ∧ (5 : ℕ) < 10 := by
  refine ⟨?_, by norm_num⟩
  simp [RPLidarC1.Response.multi_response_handler,
    RPLidarC1.Response.multi_response_iteration]

/-- C5 amended: in each iteration of the streaming loop, the transport read
happens if and only if the availability check sees at least one byte; with
zero bytes available the iteration only sleeps 0.5 s and re-checks; with
1–9 bytes available it sleeps 0.1 s first but then reads anyway, without
re-checking availability. -/
theorem C5_backoff_read_behavior (env : RPLidarC1.IterEnv) (length : ℕ)
    (output_dict : Option RPLidarC1.Snapshot) :
    (env.in_waiting = 0 →
      RPLidarC1.Response.multi_response_iteration env length output_dict =
        ([.sleep 500], output_dict))
    ∧ (env.in_waiting ≠ 0 →
        RPLidarC1.Event.readBytes length ∈
          (RPLidarC1.Response.multi_response_iteration env length output_dict).1)
    ∧ (env.in_waiting ≠ 0 → env.in_waiting < 10 →
        ∃ rest,
          (RPLidarC1.Response.multi_response_iteration env length output_dict).1 =
            RPLidarC1.Event.sleep 100 :: rest ∧
          RPLidarC1.Event.readBytes length ∈ rest) := by
  refine ⟨?_, ?_, ?_⟩
  · intro h
    simp [RPLidarC1.Response.multi_response_iteration, h]
  · intro h
    rcases output_dict with _ | d <;>
      by_cases hw : env.in_waiting < 10 <;>
        simp [RPLidarC1.Response.multi_response_iteration, h, hw]
  · intro h hw
    rcases output_dict with _ | d <;>
      simp [RPLidarC1.Response.multi_response_iteration, h, hw]

/-- C5 witness: the amended behaviour applied to a concrete iteration with
5 bytes available. -/
theorem C5_backoff_read_behavior_witness :
    ((5 : ℕ) ≠ 0) ∧
      RPLidarC1.Event.readBytes 7 ∈
        (RPLidarC1.Response.multi_response_iteration ⟨false, 5, []⟩ 7 none).1 :=
  ⟨by norm_num, (C5_backoff_read_behavior ⟨false, 5, []⟩ 7 none).2.1 (by norm_num)⟩

/-- C6 counterexample: a health exchange whose descriptor reports
`MUTLI_RESPONSE` mode (size/mode bytes `03 00 00 40`, top bits `01`) is not
rejected: `healthcheck` never inspects the mode, reads the 3-byte payload
`00 00 00` and succeeds with status `GOOD`, contradicting the claim that a
Multi descriptor makes the call fail before decoding the payload. -/
theorem C6_multi_mode_not_rejected :
    RPLidarC1.Response.parse_response_descriptor
        [0xa5, 0x5a, 0x03, 0x00, 0x00, 0x40, 0x00] =
      .ok (3, RPLidarC1.ResponseMode.MUTLI_RESPONSE) ∧
    RPLidarC1.RPLidar.healthcheck
        [0xa5, 0x5a, 0x03, 0x00, 0x00, 0x40, 0x00, 0x00, 0x00, 0x00] =
      .ok RPLidarC1.HealthStatus.GOOD := by
  exact ⟨rfl, rfl⟩

/-- C6 amended: `healthcheck` never checks the reported response mode.  For
every stream whose descriptor parses (with any mode), the first payload
byte decides the outcome: 0 succeeds with `GOOD`, 1 succeeds with
`WARNING`, and 2 fails with the `raise` on `status == 2` (the
specification's DeviceFault). -/
theorem C6_healthcheck_behavior (stream : List ℕ) (len : ℕ)
    (mode : RPLidarC1.ResponseMode)
    (hdesc : RPLidarC1.Response.parse_response_descriptor (stream.take 7) =
      .ok (len, mode)) :
    (((stream.drop 7).take len).getD 0 0 = 0 →
        RPLidarC1.RPLidar.healthcheck stream = .ok .GOOD)
    ∧ (((stream.drop 7).take len).getD 0 0 = 1 →
        RPLidarC1.RPLidar.healthcheck stream = .ok .WARNING)
    ∧ (((stream.drop 7).take len).getD 0 0 = 2 →
        RPLidarC1.RPLidar.healthcheck stream = .error .device_fault) := by
  unfold RPLidarC1.RPLidar.healthcheck
  rw [hdesc]
  refine ⟨?_, ?_, ?_⟩ <;> intro h <;>
    simp only [List.getD, List.get?_eq_getElem?] at h <;>
      simp [h, RPLidarC1.HealthStatus.ofNat?]

/-- C6 witness: the amended behaviour applied to a concrete Multi-mode
stream whose payload byte is 2, which fails with the device-fault raise. -/
theorem C6_healthcheck_behavior_witness :
    (RPLidarC1.Response.parse_response_descriptor
        ([0xa5, 0x5a, 0x03, 0x00, 0x00, 0x40, 0x00, 0x02, 0x00, 0x00].take 7) =
      .ok (3, RPLidarC1.ResponseMode.MUTLI_RESPONSE)) ∧
    RPLidarC1.RPLidar.healthcheck
        [0xa5, 0x5a, 0x03, 0x00, 0x00, 0x40, 0x00, 0x02, 0x00, 0x00] =
      .error .device_fault :=
  ⟨rfl, (C6_healthcheck_behavior
    [0xa5, 0x5a, 0x03, 0x00, 0x00, 0x40, 0x00, 0x02, 0x00, 0x00] 3
    .MUTLI_RESPONSE rfl).2.2 rfl⟩

/-- C8: for every 5-byte scan record, the decode path
(`_parse_simple_scan_result` followed by
`distance = None if distance == 0 else distance`) yields `none` (no
return) exactly when the raw little-endian distance field is zero, and the
raw value divided by 4 (in millimetres) otherwise; a zero raw field is
never reported as a numeric 0. -/
theorem C8_zero_distance_no_return (b0 b1 b2 b3 b4 : ℕ)
    (h0 : b0 < 256) (h1 : b1 < 256) (h2 : b2 < 256) (h3 : b3 < 256)
    (h4 : b4 < 256) :
    ((b3 ||| (b4 <<< 8)) = 0 →
      (RPLidarC1.Response.decode_sample [b0, b1, b2, b3, b4]).2.2 = none)
    ∧ ((b3 ||| (b4 <<< 8)) ≠ 0 →
      (RPLidarC1.Response.decode_sample [b0, b1, b2, b3, b4]).2.2 =
        some ((((b3 ||| (b4 <<< 8)) : ℕ) : ℚ) / 4)) := by
  have hd : (RPLidarC1.Response.decode_sample [b0, b1, b2, b3, b4]).2.2 =
      if ((((b3 ||| (b4 <<< 8)) : ℕ) : ℚ) / 4) = 0 then none
      else some ((((b3 ||| (b4 <<< 8)) : ℕ) : ℚ) / 4) := rfl
  constructor
  · intro h
    rw [hd, h]
    norm_num
  · intro h
    rw [hd, if_neg]
    intro hc
    rw [div_eq_zero_iff] at hc
    rcases hc with hc | hc
    · exact h (by exact_mod_cast hc)
    · norm_num at hc

/-- C8 witness: the all-zero record decodes to a `none` distance, and the
regression record (raw distance 5000) decodes to 5000/4 mm. -/
theorem C8_zero_distance_no_return_witness :
    (((0 : ℕ) ||| (0 <<< 8)) = 0 ∧
      (RPLidarC1.Response.decode_sample [0, 0, 0, 0, 0]).2.2 = none)
    ∧ (((0x88 : ℕ) ||| (0x13 <<< 8)) ≠ 0 ∧
      (RPLidarC1.Response.decode_sample [0x3c, 0x55, 0x16, 0x88, 0x13]).2.2 =
        some ((((0x88 : ℕ) ||| (0x13 <<< 8) : ℕ) : ℚ) / 4)) :=
  ⟨⟨by decide,
    (C8_zero_distance_no_return 0 0 0 0 0 (by norm_num) (by norm_num)
      (by norm_num) (by norm_num) (by norm_num)).1 (by decide)⟩,
   ⟨by decide,
    (C8_zero_distance_no_return 0x3c 0x55 0x16 0x88 0x13 (by norm_num)
      (by norm_num) (by norm_num) (by norm_num) (by norm_num)).2 (by decide)⟩⟩

namespace RPLidarC1

/-- A list containing two distinct elements has at least two entries. -/
theorem two_le_length_of_mem_ne {l : List String} {a b : String} (hab : a ≠ b)
    (ha : a ∈ l) (hb : b ∈ l) : 2 ≤ l.length := by
  match l with
  | [] => simp at ha
  | [x] =>
    simp at ha hb
    exact absurd (ha.trans hb.symm) hab
  | x :: y :: t => simp [List.length]

end RPLidarC1

/-- C9: every call to `handle_response` whose arguments are not exactly the
two keyword arguments `serial` and `length` (no positionals, exactly those
two keywords) and do not include all four keywords `serial`, `stop_event`,
`output_queue`, `length` raises `NotImplementedError`; in particular two
positional arguments with no keywords do, even though the argument count
is 2. -/
theorem C9_handle_response_dispatch :
    (∀ (num_args : ℕ) (kwargs : List String),
      ¬(num_args = 0 ∧ kwargs.length = 2 ∧ "serial" ∈ kwargs ∧
        "length" ∈ kwargs) →
      ¬("serial" ∈ kwargs ∧ "stop_event" ∈ kwargs ∧ "output_queue" ∈ kwargs ∧
        "length" ∈ kwargs) →
      RPLidarC1.Response.handle_response num_args kwargs = .notImplementedError)
    ∧ RPLidarC1.Response.handle_response 2 [] = .notImplementedError := by
  constructor
  · intro num_args kwargs hex hall
    have hc1 : ¬(num_args + kwargs.length = 2 ∧ "serial" ∈ kwargs ∧
        "length" ∈ kwargs) := by
      rintro ⟨hcount, hs, hl⟩
      have hlen : 2 ≤ kwargs.length :=
        RPLidarC1.two_le_length_of_mem_ne (by decide) hs hl
      exact hex ⟨by omega, by omega, hs, hl⟩
    unfold RPLidarC1.Response.handle_response
    rw [if_neg hc1, if_neg hall]
  · rfl

/-- C9 witness: the dispatch theorem applied to the concrete positional
call `handle_response(serial_obj, 5)` — two positional arguments, no
keywords. -/
theorem C9_handle_response_dispatch_witness :
    (¬((2 : ℕ) = 0 ∧ ([] : List String).length = 2 ∧
        "serial" ∈ ([] : List String) ∧ "length" ∈ ([] : List String))) ∧
      RPLidarC1.Response.handle_response 2 [] = .notImplementedError :=
  ⟨by simp, C9_handle_response_dispatch.1 2 [] (by simp) (by simp)⟩

namespace RPLidarC1

/-- An iteration started with `output_dict = None` leaves it `None`. -/
theorem multi_response_iteration_none_snd (env : IterEnv) (n : ℕ) :
    (Response.multi_response_iteration env n none).2 = none := by
  by_cases h : env.in_waiting = 0 <;>
    simp [Response.multi_response_iteration, h]

/-- An iteration started with `output_dict = None` emits no snapshot
write. -/
theorem multi_response_iteration_none_no_dictWrite (env : IterEnv) (n : ℕ)
    (k : ℚ) (v : Option ℚ) :
    Event.dictWrite k v ∉ (Response.multi_response_iteration env n none).1 := by
  by_cases h : env.in_waiting = 0 <;>
    by_cases hw : env.in_waiting < 10 <;>
      simp [Response.multi_response_iteration, h, hw]

end RPLidarC1

/-- C10: when the streaming loop is started with `output_dict = None` (the
`simple_scan` default), no snapshot write ever happens and the dict stays
`None` — the only mutations besides the transport reads and sleeps are the
queue publications — while every iteration that reads a record still
publishes the decoded sample to the consumer queue. -/
theorem C10_none_dict_frame (n : ℕ) :
    (∀ (envs : List RPLidarC1.IterEnv) (k : ℚ) (v : Option ℚ),
      RPLidarC1.Event.dictWrite k v ∉
        (RPLidarC1.Response.multi_response_handler n envs none).1)
    ∧ (∀ envs : List RPLidarC1.IterEnv,
        (RPLidarC1.Response.multi_response_handler n envs none).2 = none)
    ∧ (∀ env : RPLidarC1.IterEnv, env.in_waiting ≠ 0 →
        RPLidarC1.Event.putQueue (RPLidarC1.Response.decode_sample env.data).1
            (RPLidarC1.Response.decode_sample env.data).2.1
            (RPLidarC1.Response.decode_sample env.data).2.2 ∈
          (RPLidarC1.Response.multi_response_iteration env n none).1) := by
  refine ⟨?_, ?_, ?_⟩
  · intro envs k v
    induction envs with
    | nil => simp [RPLidarC1.Response.multi_response_handler]
    | cons env rest ih =>
      by_cases hs : env.stop_is_set
      · simp [RPLidarC1.Response.multi_response_handler, hs]
      · simp only [RPLidarC1.Response.multi_response_handler, hs, if_false,
          Bool.false_eq_true, List.mem_append, not_or]
        rw [RPLidarC1.multi_response_iteration_none_snd]
        exact ⟨RPLidarC1.multi_response_iteration_none_no_dictWrite env n k v, ih⟩
  · intro envs
    induction envs with
    | nil => rfl
    | cons env rest ih =>
      by_cases hs : env.stop_is_set
      · simp [RPLidarC1.Response.multi_response_handler, hs]
      · simp only [RPLidarC1.Response.multi_response_handler, hs, if_false,
          Bool.false_eq_true]
        rw [RPLidarC1.multi_response_iteration_none_snd]
        exact ih
  · intro env h
    by_cases hw : env.in_waiting < 10 <;>
      simp [RPLidarC1.Response.multi_response_iteration, h, hw]

/-- C10 witness: the frame theorem applied to a concrete one-iteration run
and a concrete reading iteration. -/
theorem C10_none_dict_frame_witness :
    (RPLidarC1.Event.dictWrite 0 none ∉
      (RPLidarC1.Response.multi_response_handler 5
        [⟨false, 10, [0x3c, 0x55, 0x16, 0x88, 0x13]⟩] none).1)
    ∧ ((10 : ℕ) ≠ 0 ∧
      RPLidarC1.Event.putQueue
          (RPLidarC1.Response.decode_sample [0x3c, 0x55, 0x16, 0x88, 0x13]).1
          (RPLidarC1.Response.decode_sample [0x3c, 0x55, 0x16, 0x88, 0x13]).2.1
          (RPLidarC1.Response.decode_sample [0x3c, 0x55, 0x16, 0x88, 0x13]).2.2 ∈
        (RPLidarC1.Response.multi_response_iteration
          ⟨false, 10, [0x3c, 0x55, 0x16, 0x88, 0x13]⟩ 5 none).1) :=
  ⟨(C10_none_dict_frame 5).1 _ 0 none,
   by norm_num,
   (C10_none_dict_frame 5).2.2 ⟨false, 10, [0x3c, 0x55, 0x16, 0x88, 0x13]⟩
     (by norm_num)⟩

namespace RPLidarC1

/-- `pyRound` never overshoots by more than one half. -/
theorem pyRound_le (x : ℚ) : (pyRound x : ℚ) ≤ x + 1 / 2 := by
  have hf := Int.floor_le x
  have hc := Int.lt_floor_add_one x
  unfold pyRound
  split_ifs with h1 h2 h3 <;> push_cast <;> linarith

/-- `pyRound` never undershoots by more than one half. -/
theorem le_pyRound (x : ℚ) : x - 1 / 2 ≤ (pyRound x : ℚ) := by
  have hf := Int.floor_le x
  have hc := Int.lt_floor_add_one x
  unfold pyRound
  split_ifs with h1 h2 h3 <;> push_cast <;> linarith

/-- `pyRound` of a nonnegative rational is nonnegative. -/
theorem pyRound_nonneg {x : ℚ} (h : 0 ≤ x) : 0 ≤ pyRound x := by
  have h0 : 0 ≤ ⌊x⌋ := Int.floor_nonneg.mpr h
  unfold pyRound
  split_ifs <;> omega

/-- Entries read from a byte list (default 0) are bytes. -/
theorem getD_lt_256 {r : List ℕ} (wf : ∀ b ∈ r, b < 256) (i : ℕ) :
    r.getD i 0 < 256 := by
  rcases h : r[i]? with _ | b
  · simp [List.getD, List.get?_eq_getElem?, h]
  · have hb : b ∈ r := List.getElem?_mem h
    simp [List.getD, List.get?_eq_getElem?, h]
    exact wf b hb

/-- The 15-bit raw angle assembled by `_parse_simple_scan_result` is at most
`2 ^ 15 - 1` when byte 2 is a byte. -/
theorem angle_raw_le {b1 b2 : ℕ} (h2 : b2 < 256) :
    (((b1 >>> 1) &&& 127) ||| (b2 <<< 7)) ≤ 32767 := by
  have hlow : ((b1 >>> 1) &&& 127) ≤ 127 := Nat.and_le_right
  rw [lor_shiftLeft_eq_add (show ((b1 >>> 1) &&& 127) < 2 ^ 7 by omega)]
  omega

/-- The angle produced by `_parse_simple_scan_result` on a byte record is a
two-decimal rational between 0 and 512. -/
theorem parse_angle_bounded {r : List ℕ} (wf : ∀ b ∈ r, b < 256) :
    ∃ z : ℤ, (Response.parse_simple_scan_result r).2.1 = (z : ℚ) / 100 ∧
      0 ≤ z ∧ z ≤ 51200 := by
  set A : ℕ := (((r.getD 1 0) >>> 1) &&& 127) ||| ((r.getD 2 0) <<< 7) with hA
  have hAle : A ≤ 32767 := angle_raw_le (getD_lt_256 wf 2)
  set x : ℚ := ((A : ℕ) : ℚ) / 64 * 3 with hx
  set m : ℤ := pyRound x with hm
  set y : ℚ := ((m : ℤ) : ℚ) / 3 * 100 with hy
  refine ⟨pyRound y, rfl, ?_, ?_⟩
  · refine pyRound_nonneg ?_
    have hm0 : 0 ≤ m := pyRound_nonneg (by positivity)
    rw [hy]
    have : (0 : ℚ) ≤ (m : ℚ) := by exact_mod_cast hm0
    positivity
  · have hxle : x ≤ 98301 / 64 := by
      rw [hx]
      have : ((A : ℕ) : ℚ) ≤ 32767 := by exact_mod_cast hAle
      linarith
    have hmle : m ≤ 1536 := by
      have h1 : (m : ℚ) ≤ x + 1 / 2 := pyRound_le x
      have h2 : (m : ℚ) < 1537 := by linarith
      exact_mod_cast Int.lt_add_one_iff.mp (by exact_mod_cast h2)
    have hyle : y ≤ 51200 := by
      rw [hy]
      have : (m : ℚ) ≤ 1536 := by exact_mod_cast hmle
      linarith
    have h1 : ((pyRound y : ℤ) : ℚ) ≤ y + 1 / 2 := pyRound_le y
    have h2 : ((pyRound y : ℤ) : ℚ) < 51201 := by linarith
    exact_mod_cast Int.lt_add_one_iff.mp (by exact_mod_cast h2)

end RPLidarC1

/-- C7 counterexample: decoding the record `3C 55 16 88 13` inside the
streaming loop writes the snapshot key 44.67, which is not an integer angle
bucket in `0..360` — the snapshot is keyed by the two-decimal quantized
angle, not by integer degrees. -/
theorem C7_noninteger_bucket_counterexample :
    RPLidarC1.Event.dictWrite (4467 / 100) (some 1250) ∈
      (RPLidarC1.Response.multi_response_handler 5
        [⟨false, 10, [0x3c, 0x55, 0x16, 0x88, 0x13]⟩] (some [])).1
    ∧ ¬∃ nb : ℕ, nb ≤ 360 ∧ (4467 / 100 : ℚ) = nb := by
  constructor
  · simp [RPLidarC1.Response.multi_response_handler,
      RPLidarC1.Response.multi_response_iteration, RPLidarC1.decode_sample_vector]
  · rintro ⟨nb, -, h⟩
    rw [div_eq_iff (by norm_num : (100 : ℚ) ≠ 0)] at h
    have h' : (4467 : ℕ) = nb * 100 := by exact_mod_cast h
    omega

namespace RPLidarC1

/-- The value of the last snapshot write to key `k` in an event trace, if
any (later events take precedence). -/
def lastDictWrite (k : ℚ) : List Event → Option (Option ℚ)
  | [] => none
  | e :: rest =>
    match lastDictWrite k rest with
    | some v => some v
    | none =>
      match e with
      | .dictWrite k' v => if k' = k then some v else none
      | _ => none

/-- `lastDictWrite` over an appended trace prefers the later part. -/
theorem lastDictWrite_append (k : ℚ) (tr1 tr2 : List Event) :
    lastDictWrite k (tr1 ++ tr2) =
      match lastDictWrite k tr2 with
      | some v => some v
      | none => lastDictWrite k tr1 := by
  induction tr1 with
  | nil =>
    cases h : lastDictWrite k tr2 <;> simp [lastDictWrite, h]
  | cons e t ih =>
    simp only [List.cons_append, lastDictWrite, List.append_eq]
    rw [ih]
    cases h2 : lastDictWrite k tr2 <;> cases h1 : lastDictWrite k t <;> simp

/-- Looking up after a Python dict assignment: the assigned key sees the
new value, all other keys are untouched. -/
theorem dictLookup_dictInsert (d : Snapshot) (k a : ℚ) (v : Option ℚ) :
    dictLookup k (dictInsert d a v) =
      if a = k then some v else dictLookup k d := by
  induction d with
  | nil =>
    by_cases hk : a = k <;> simp [dictInsert, dictLookup, hk]
  | cons p t ih =>
    obtain ⟨k', v'⟩ := p
    by_cases h : k' = a
    · subst h
      by_cases hk : k' = k <;> simp [dictInsert, dictLookup, hk]
    · have hia : dictInsert ((k', v') :: t) a v = (k', v') :: dictInsert t a v := by
        simp [dictInsert, h]
      rw [hia]
      by_cases hk' : k' = k
      · subst hk'
        have ha : ¬a = k' := fun hh => h hh.symm
        simp [dictLookup, ha]
      · simp [dictLookup, hk', ih]

/-- The event trace of one reading iteration (with a live dict) records
exactly one snapshot write, to the decoded angle. -/
theorem lastDictWrite_iteration_events (k : ℚ) (n q : ℕ) (a : ℚ)
    (dv : Option ℚ) (backoff : List Event)
    (hb : backoff = [] ∨ backoff = [Event.sleep 100]) :
    lastDictWrite k (backoff ++
        [Event.readBytes n, Event.dictWrite a dv, Event.putQueue q a dv]) =
      if a = k then some dv else none := by
  rcases hb with hb | hb <;> subst hb <;>
    by_cases ha : a = k <;> simp [lastDictWrite, ha]

end RPLidarC1

namespace RPLidarC1

/-- The angle of a decoded sample is the angle of the parsed record. -/
theorem decode_sample_angle (r : List ℕ) :
    (Response.decode_sample r).2.1 = (Response.parse_simple_scan_result r).2.1 := rfl

/-- Every snapshot key the streaming loop ever writes is a two-decimal
rational between 0 and 512 (the decoded, quantized angle). -/
theorem handler_dictWrite_key_bounded (n : ℕ) (envs : List IterEnv)
    (d0 : Option Snapshot) (k : ℚ) (v : Option ℚ)
    (wf : ∀ env ∈ envs, ∀ b ∈ env.data, b < 256)
    (hmem : Event.dictWrite k v ∈ (Response.multi_response_handler n envs d0).1) :
    ∃ z : ℤ, k = (z : ℚ) / 100 ∧ 0 ≤ z ∧ z ≤ 51200 := by
  induction envs generalizing d0 with
  | nil => simp [Response.multi_response_handler] at hmem
  | cons env rest ih =>
    have hwf_env : ∀ b ∈ env.data, b < 256 := wf env (List.mem_cons_self env rest)
    have hwf_rest : ∀ e ∈ rest, ∀ b ∈ e.data, b < 256 :=
      fun e he => wf e (List.mem_cons_of_mem _ he)
    by_cases hs : env.stop_is_set
    · simp [Response.multi_response_handler, hs] at hmem
    · simp only [Response.multi_response_handler, hs, Bool.false_eq_true, if_false,
        List.mem_append] at hmem
      rcases hmem with hmem | hmem
      · by_cases hw : env.in_waiting = 0
        · simp [Response.multi_response_iteration, hw] at hmem
        · cases d0 with
          | none =>
            exact absurd hmem (multi_response_iteration_none_no_dictWrite env n k v)
          | some d =>
            obtain ⟨z, hz, hz0, hz1⟩ := parse_angle_bounded hwf_env
            by_cases hb : env.in_waiting < 10 <;>
              simp [Response.multi_response_iteration, hw, hb] at hmem <;>
                exact ⟨z, by rw [hmem.1, decode_sample_angle, hz], hz0, hz1⟩
      · exact ih _ hwf_rest hmem

/-- After any run of the streaming loop started with a live snapshot, the
final snapshot is still live and each key holds the value of the last write
to that key in the emitted trace (or its initial value when the trace never
wrote it). -/
theorem handler_dict_eq_lastWrite (n : ℕ) (envs : List IterEnv)
    (d0 : Snapshot) (k : ℚ) :
    ∃ df, (Response.multi_response_handler n envs (some d0)).2 = some df ∧
      dictLookup k df =
        (match lastDictWrite k
            (Response.multi_response_handler n envs (some d0)).1 with
         | some v => some v
         | none => dictLookup k d0) := by
  induction envs generalizing d0 with
  | nil =>
    refine ⟨d0, rfl, ?_⟩
    simp [Response.multi_response_handler, lastDictWrite]
  | cons env rest ih =>
    by_cases hs : env.stop_is_set
    · refine ⟨d0, by simp [Response.multi_response_handler, hs], ?_⟩
      simp [Response.multi_response_handler, hs, lastDictWrite]
    · by_cases hw : env.in_waiting = 0
      · obtain ⟨df, hdf, hlook⟩ := ih d0
        have hstep : Response.multi_response_iteration env n (some d0) =
            ([Event.sleep 500], some d0) := by
          unfold Response.multi_response_iteration
          rw [if_pos hw]
        have htr : (Response.multi_response_handler n (env :: rest) (some d0)).1 =
            [Event.sleep 500] ++
              (Response.multi_response_handler n rest (some d0)).1 := by
          simp [Response.multi_response_handler, hs, hstep]
        have hsnd : (Response.multi_response_handler n (env :: rest) (some d0)).2 =
            (Response.multi_response_handler n rest (some d0)).2 := by
          simp [Response.multi_response_handler, hs, hstep]
        refine ⟨df, by rw [hsnd, hdf], ?_⟩
        rw [htr, lastDictWrite_append]
        cases h : lastDictWrite k (Response.multi_response_handler n rest (some d0)).1 with
        | none =>
          rw [h] at hlook
          simpa [lastDictWrite] using hlook
        | some v =>
          rw [h] at hlook
          simpa [lastDictWrite] using hlook
      · obtain ⟨df, hdf, hlook⟩ :=
          ih (dictInsert d0 (Response.decode_sample env.data).2.1
            (Response.decode_sample env.data).2.2)
        have hstep : Response.multi_response_iteration env n (some d0) =
            ((if env.in_waiting < 10 then [Event.sleep 100] else []) ++
              [Event.readBytes n,
               Event.dictWrite (Response.decode_sample env.data).2.1
                 (Response.decode_sample env.data).2.2,
               Event.putQueue (Response.decode_sample env.data).1
                 (Response.decode_sample env.data).2.1
                 (Response.decode_sample env.data).2.2],
             some (dictInsert d0 (Response.decode_sample env.data).2.1
               (Response.decode_sample env.data).2.2)) := by
          unfold Response.multi_response_iteration
          rw [if_neg hw]
        have htr : (Response.multi_response_handler n (env :: rest) (some d0)).1 =
            ((if env.in_waiting < 10 then [Event.sleep 100] else []) ++
              [Event.readBytes n,
               Event.dictWrite (Response.decode_sample env.data).2.1
                 (Response.decode_sample env.data).2.2,
               Event.putQueue (Response.decode_sample env.data).1
                 (Response.decode_sample env.data).2.1
                 (Response.decode_sample env.data).2.2]) ++
              (Response.multi_response_handler n rest
                (some (dictInsert d0 (Response.decode_sample env.data).2.1
                  (Response.decode_sample env.data).2.2))).1 := by
          simp [Response.multi_response_handler, hs, hstep]
        have hsnd : (Response.multi_response_handler n (env :: rest) (some d0)).2 =
            (Response.multi_response_handler n rest
              (some (dictInsert d0 (Response.decode_sample env.data).2.1
                (Response.decode_sample env.data).2.2))).2 := by
          simp [Response.multi_response_handler, hs, hstep]
        refine ⟨df, by rw [hsnd, hdf], ?_⟩
        rw [htr, lastDictWrite_append, lastDictWrite_iteration_events k n
          (Response.decode_sample env.data).1 (Response.decode_sample env.data).2.1
          (Response.decode_sample env.data).2.2 _
          (by by_cases h10 : env.in_waiting < 10 <;> simp [h10])]
        cases h : lastDictWrite k (Response.multi_response_handler n rest
            (some (dictInsert d0 (Response.decode_sample env.data).2.1
              (Response.decode_sample env.data).2.2))).1 with
        | some v =>
          rw [h] at hlook
          simpa using hlook
        | none =>
          rw [h] at hlook
          simp only [] at hlook
          rw [dictLookup_dictInsert] at hlook
          by_cases hak : (Response.decode_sample env.data).2.1 = k <;>
            simp [hak] at hlook ⊢ <;> exact hlook

end RPLidarC1

/-- C7 amended: every key the streaming loop writes into the snapshot is
the decoded two-decimal quantized angle — a rational `z/100` with
`0 ≤ z ≤ 51200` (so in `[0, 512]`, not necessarily an integer and possibly
above 360) — and a later write to the same key overwrites the earlier one:
after any run, each key of the final snapshot holds the value of the last
`dictWrite` to it in the trace (or its initial value when never written). -/
theorem C7_snapshot_amended :
    (∀ (n : ℕ) (envs : List RPLidarC1.IterEnv) (d0 : Option RPLidarC1.Snapshot)
        (k : ℚ) (v : Option ℚ),
      (∀ env ∈ envs, ∀ b ∈ env.data, b < 256) →
      RPLidarC1.Event.dictWrite k v ∈
        (RPLidarC1.Response.multi_response_handler n envs d0).1 →
      ∃ z : ℤ, k = (z : ℚ) / 100 ∧ 0 ≤ z ∧ z ≤ 51200)
    ∧ (∀ (n : ℕ) (envs : List RPLidarC1.IterEnv) (d0 : RPLidarC1.Snapshot) (k : ℚ),
        ∃ df,
          (RPLidarC1.Response.multi_response_handler n envs (some d0)).2 = some df ∧
          RPLidarC1.dictLookup k df =
            (match RPLidarC1.lastDictWrite k
                (RPLidarC1.Response.multi_response_handler n envs (some d0)).1 with
             | some v => some v
             | none => RPLidarC1.dictLookup k d0)) :=
  ⟨fun n envs d0 k v wf hmem =>
      RPLidarC1.handler_dictWrite_key_bounded n envs d0 k v wf hmem,
   fun n envs d0 k => RPLidarC1.handler_dict_eq_lastWrite n envs d0 k⟩

/-- C7 witness: the amended theorem applied to the one-iteration run on the
record `3C 55 16 88 13` (key 44.67) and to a concrete empty run. -/
theorem C7_snapshot_amended_witness :
    (∃ z : ℤ, (4467 / 100 : ℚ) = (z : ℚ) / 100 ∧ 0 ≤ z ∧ z ≤ 51200)
    ∧ (∃ df,
        (RPLidarC1.Response.multi_response_handler 5 [] (some [])).2 = some df ∧
        RPLidarC1.dictLookup 0 df =
          (match RPLidarC1.lastDictWrite 0
              (RPLidarC1.Response.multi_response_handler 5 [] (some [])).1 with
           | some v => some v
           | none => RPLidarC1.dictLookup 0 [])) :=
  ⟨C7_snapshot_amended.1 5 [⟨false, 10, [0x3c, 0x55, 0x16, 0x88, 0x13]⟩]
      (some []) (4467 / 100) (some 1250) (by decide)
      (by simp [RPLidarC1.Response.multi_response_handler,
        RPLidarC1.Response.multi_response_iteration, RPLidarC1.decode_sample_vector]),
   C7_snapshot_amended.2 5 [] [] 0⟩
